import Mathlib

/-!
Verification of the metric_explorer investigation workflow.

This file shallowly embeds the core of the repository's agent package:
the findings ledger (`src/agent/src/memory/findings_ledger.py`), the
analysis-execution node (`src/agent/src/nodes/analysis_execution.py`),
the metric-identification node (`src/agent/src/nodes/metric_identification.py`),
the schema-inference node (`src/agent/src/nodes/schema_inference.py`),
the report-generator node (`src/agent/src/nodes/report_generator.py`) and the
graph edge predicates (`src/agent/src/graph.py`), and proves the spec's
testable properties about them.

Modelling conventions:
- Python `str` becomes `String`; Python `int` becomes `Int` or `Nat`.
- `datetime.now(...)` values are passed in as explicit `now : String` arguments.
- The file system under the session root is modelled explicitly where a claim
  needs it (the ledger file becomes an `Option Ledger` holding the file's
  parsed content; `none` means the file does not exist).
- External collaborators (the LLM, `csv_tools.get_headers`) are passed in as
  function arguments returning `Except String _` (`Except.error` models a
  raised exception carrying `str(e)`).
-/

namespace MetricExplorer

/-- Outcome of a hypothesis investigation, `Literal["CONFIRMED", "RULED_OUT"]`
in `src/agent/src/state.py` (`Finding.outcome`). -/
inductive Outcome where
  | CONFIRMED
  | RULED_OUT
deriving DecidableEq, Repr

/-- Confidence level, `Literal["HIGH", "MEDIUM", "LOW"]` in `state.py`. -/
inductive Confidence where
  | HIGH
  | MEDIUM
  | LOW
deriving DecidableEq, Repr

/-- Hypothesis status, `Literal["PENDING", "INVESTIGATING", "CONFIRMED",
"RULED_OUT"]` in `state.py` (`Hypothesis.status`). -/
inductive HypothesisStatus where
  | PENDING
  | INVESTIGATING
  | CONFIRMED
  | RULED_OUT
deriving DecidableEq, Repr

/-- `Finding` TypedDict from `src/agent/src/state.py`. -/
structure Finding where
  finding_id : String
  hypothesis_id : String
  outcome : Outcome
  evidence : String
  confidence : Confidence
  key_metrics : List String
  session_log_ref : String
  completed_at : String
deriving DecidableEq, Repr

/-- Summary block of the findings ledger
(`findings_ledger.py`, the `summary` dict). Counters are Python ints. -/
structure LedgerSummary where
  total_hypotheses : Int
  confirmed : Int
  ruled_out : Int
  pending : Int
deriving DecidableEq, Repr

/-- Parsed content of `analysis/findings_ledger.json`
(the dict built in `initialize_findings_ledger` / `add_finding_to_ledger`). -/
structure Ledger where
  session_id : String
  created_at : String
  updated_at : String
  findings : List Finding
  summary : LedgerSummary
deriving DecidableEq, Repr

/-- `initialize_findings_ledger` (findings_ledger.py lines 23-48): builds the
initial empty ledger dict. `session_id` stands for `Path(session_path).name`
and `now` for `datetime.now(timezone.utc).isoformat()`. -/
def initFindingsLedger (session_id now : String) : Ledger :=
  { session_id := session_id
    created_at := now
    updated_at := now
    findings := []
    summary :=
      { total_hypotheses := 0
        confirmed := 0
        ruled_out := 0
        pending := 0 } }

/-- Count of findings with a given outcome, as in the two `sum(1 for f in
ledger["findings"] if f.get("outcome") == ...)` expressions of
`add_finding_to_ledger`. -/
def countOutcome (o : Outcome) (fs : List Finding) : Int :=
  ((fs.filter fun f => decide (f.outcome = o)).length : Int)

/-- `add_finding_to_ledger` (findings_ledger.py lines 69-103) minus the I/O:
append the finding, then recompute the whole summary from the findings list
(`total_hypotheses = len(findings)`, `confirmed`/`ruled_out` by counting,
`pending = total - confirmed - ruled_out`) and refresh `updated_at`. -/
def add_finding_to_ledger (led : Ledger) (f : Finding) (now : String) : Ledger :=
  let findings := led.findings ++ [f]
  let total : Int := (findings.length : Int)
  let confirmed := countOutcome Outcome.CONFIRMED findings
  let ruled_out := countOutcome Outcome.RULED_OUT findings
  { led with
    findings := findings
    updated_at := now
    summary :=
      { total_hypotheses := total
        confirmed := confirmed
        ruled_out := ruled_out
        pending := total - confirmed - ruled_out } }

/-- Repeated `add_finding_to_ledger` calls, one per finding, in list order
(the per-hypothesis loop of `analysis_execution` appends exactly like this). -/
def appendFindings (led : Ledger) (fs : List Finding) (now : String) : Ledger :=
  fs.foldl (fun l f => add_finding_to_ledger l f now) led

/-! ### The ledger file on disk

The ledger file `analysis/findings_ledger.json` is modelled as an
`Option Ledger`: `none` when the file does not exist, `some led` when it
holds (the JSON serialization of) `led`. -/

/-- File-level `initialize_findings_ledger`: it opens the path with mode "w"
and writes the fresh initial ledger, unconditionally — the previous file
content, if any, is discarded (there is no existence check in the source). -/
def fsInitializeLedger (session_id now : String) (_file : Option Ledger) :
    Option Ledger :=
  some (initFindingsLedger session_id now)

/-- `read_findings_ledger` (findings_ledger.py lines 51-66): lazily writes the
initial ledger when the file is missing, then returns the file's content. -/
def fsReadLedger (session_id now : String) (file : Option Ledger) : Ledger :=
  match file with
  | none => initFindingsLedger session_id now
  | some led => led

/-- File-level `add_finding_to_ledger`: read (lazy-initializing), merge,
write back. -/
def fsAddFinding (session_id now : String) (f : Finding) (file : Option Ledger) :
    Option Ledger :=
  some (add_finding_to_ledger (fsReadLedger session_id now file) f now)

/-- Sequence of file-level appends, one `add_finding_to_ledger` call per
finding. -/
def fsAddFindings (session_id now : String) (fs : List Finding)
    (file : Option Ledger) : Option Ledger :=
  fs.foldl (fun st f => fsAddFinding session_id now f st) file

/-- Findings list currently stored in the ledger file (empty when the file
does not exist). -/
def storedFindings (file : Option Ledger) : List Finding :=
  match file with
  | none => []
  | some led => led.findings

/-- Concrete finding used in counterexamples and witnesses. -/
def sampleFinding : Finding :=
  { finding_id := "FH1"
    hypothesis_id := "H1"
    outcome := Outcome.CONFIRMED
    evidence := "revenue dropped in region west"
    confidence := Confidence.HIGH
    key_metrics := ["revenue: -12%"]
    session_log_ref := "analysis/logs/session_H1_t.json"
    completed_at := "t1" }

/-! ### Ledger lemmas -/

/-- Appending preserves the findings list as a suffix-extension: the findings
stored after a fold of appends are the initial findings followed by the
appended ones, in order. -/
theorem appendFindings_findings (fs : List Finding) (led : Ledger) (now : String) :
    (appendFindings led fs now).findings = led.findings ++ fs := by
  induction fs generalizing led with
  | nil => simp [appendFindings]
  | cons f rest ih =>
    simp only [appendFindings, List.foldl_cons] at *
    rw [ih]
    simp [add_finding_to_ledger]

/-- Disjoint outcome counts: CONFIRMED-count plus RULED_OUT-count never
exceeds the number of findings. -/
theorem countOutcome_disjoint_le (fs : List Finding) :
    countOutcome Outcome.CONFIRMED fs + countOutcome Outcome.RULED_OUT fs
      ≤ (fs.length : Int) := by
  induction fs with
  | nil => simp [countOutcome]
  | cons f rest ih =>
    simp only [countOutcome, List.filter] at *
    cases h : f.outcome <;> simp [h] <;> omega

/-- The summary invariant, directly after any single
`add_finding_to_ledger` call, for an arbitrary prior ledger state. -/
theorem add_finding_summary_invariant (led : Ledger) (f : Finding) (now : String) :
    let l := add_finding_to_ledger led f now
    l.summary.total_hypotheses = l.summary.confirmed + l.summary.ruled_out + l.summary.pending
      ∧ 0 ≤ l.summary.pending
      ∧ l.summary.confirmed = countOutcome Outcome.CONFIRMED l.findings
      ∧ l.summary.ruled_out = countOutcome Outcome.RULED_OUT l.findings := by
  intro l
  have hle := countOutcome_disjoint_le (led.findings ++ [f])
  refine ⟨by simp [l, add_finding_to_ledger], ?_, ?_, ?_⟩
  · simp only [l, add_finding_to_ledger]
    omega
  · simp [l, add_finding_to_ledger]
  · simp [l, add_finding_to_ledger]

/-- The summary invariant propagates through any sequence of appends starting
from a state that satisfies it. -/
theorem appendFindings_summary_invariant (fs : List Finding) (led : Ledger)
    (now : String)
    (h : led.summary.total_hypotheses
          = led.summary.confirmed + led.summary.ruled_out + led.summary.pending
        ∧ 0 ≤ led.summary.pending
        ∧ led.summary.confirmed = countOutcome Outcome.CONFIRMED led.findings
        ∧ led.summary.ruled_out = countOutcome Outcome.RULED_OUT led.findings) :
    let l := appendFindings led fs now
    l.summary.total_hypotheses = l.summary.confirmed + l.summary.ruled_out + l.summary.pending
      ∧ 0 ≤ l.summary.pending
      ∧ l.summary.confirmed = countOutcome Outcome.CONFIRMED l.findings
      ∧ l.summary.ruled_out = countOutcome Outcome.RULED_OUT l.findings := by
  induction fs generalizing led with
  | nil => simpa [appendFindings] using h
  | cons f rest ih =>
    simp only [appendFindings, List.foldl_cons]
    exact ih (add_finding_to_ledger led f now)
      (add_finding_summary_invariant led f now)

/-- Helper for counterexamples: a ledger file obtained by initializing and
then appending one concrete finding. -/
def c2LedgerAfterAppend : Option Ledger :=
  fsAddFinding "s1" "t1" sampleFinding (fsInitializeLedger "s1" "t0" none)

/-- `fsAddFindings` over an existing file is `appendFindings` on its content. -/
theorem fsAddFindings_some (session_id now : String) (fs : List Finding)
    (led : Ledger) :
    fsAddFindings session_id now fs (some led)
      = some (appendFindings led fs now) := by
  induction fs generalizing led with
  | nil => simp [fsAddFindings, appendFindings]
  | cons f rest ih =>
    simp only [fsAddFindings, appendFindings, List.foldl_cons] at *
    exact ih (add_finding_to_ledger led f now)

/-- C1: for every session and every sequence of calls to
`add_finding_to_ledger`, after each append (i.e. after any prefix of the
appends) the persisted ledger summary satisfies
`total_hypotheses = confirmed + ruled_out + pending` with `pending ≥ 0`,
where `confirmed` and `ruled_out` are the counts of stored findings whose
outcome is CONFIRMED resp. RULED_OUT. -/
theorem ledger_summary_invariant_after_each_append (session_id now : String)
    (fs : List Finding) (i : Nat) :
    let led := appendFindings (initFindingsLedger session_id now) (fs.take i) now
    led.summary.total_hypotheses
        = led.summary.confirmed + led.summary.ruled_out + led.summary.pending
      ∧ 0 ≤ led.summary.pending
      ∧ led.summary.confirmed = countOutcome Outcome.CONFIRMED led.findings
      ∧ led.summary.ruled_out = countOutcome Outcome.RULED_OUT led.findings := by
  exact appendFindings_summary_invariant (fs.take i)
    (initFindingsLedger session_id now) now
    (by simp [initFindingsLedger, countOutcome])

/-- C2 counterexample: `initialize_findings_ledger` has no existence check —
it unconditionally rewrites the empty ledger. Re-initializing a ledger file
that holds one finding erases that finding, so initializing twice is not a
no-op. -/
theorem ledger_reinitialize_erases_findings_cex :
    storedFindings (fsInitializeLedger "s1" "t2" c2LedgerAfterAppend)
      ≠ storedFindings c2LedgerAfterAppend := by
  decide

/-- C2 amended: `initialize_findings_ledger` unconditionally writes a fresh
empty ledger, discarding any existing file content. Hence after
initialize; append f1..fn the stored findings are exactly f1..fn, and a
second initialize resets the stored findings to the empty list (it does NOT
preserve them). In the shipped workflow `analysis_execution` calls
initialize exactly once, before any append. -/
theorem ledger_initialize_unconditionally_resets
    (session_id t0 t1 t2 : String) (fs : List Finding) :
    let afterAppends :=
      fsAddFindings session_id t1 fs (fsInitializeLedger session_id t0 none)
    storedFindings afterAppends = fs
      ∧ storedFindings (fsInitializeLedger session_id t2 afterAppends) = [] := by
  intro afterAppends
  have h : afterAppends
      = some (appendFindings (initFindingsLedger session_id t0) fs t1) :=
    fsAddFindings_some session_id t1 fs (initFindingsLedger session_id t0)
  constructor
  · rw [h]
    simp [storedFindings, appendFindings_findings, initFindingsLedger]
  · simp [fsInitializeLedger, storedFindings, initFindingsLedger]

/-! ### Analysis execution (`src/agent/src/nodes/analysis_execution.py`) -/

/-- `Hypothesis` TypedDict from `state.py`. -/
structure Hypothesis where
  id : String
  title : String
  causal_story : String
  dimensions : List String
  expected_pattern : String
  priority : Int
  status : HypothesisStatus
deriving DecidableEq, Repr

/-- `HypothesisOutcome` Pydantic model from `analysis_execution.py`
(lines 37-57): the structured verdict forced out of the reasoning agent. -/
structure HypothesisOutcome where
  outcome : Outcome
  evidence : String
  confidence : Confidence
  key_metrics : List String
deriving DecidableEq, Repr

/-- `SessionLog` TypedDict from `state.py`. `cost_usd` (a Python float) is
modelled as a rational; no claim depends on float arithmetic. -/
structure SessionLog where
  hypothesis_id : String
  start_time : String
  end_time : String
  outcome : Outcome
  turns : Nat
  total_tokens : Nat
  cost_usd : Rat
  key_findings : List String
  scripts_created : List String
  artifacts_created : List String
deriving DecidableEq, Repr

/-- Result of one `query(...)` stream of the Claude Agent SDK for one
hypothesis, as consumed by `_investigate_hypothesis_with_sdk`:
either the stream delivered a `ResultMessage` with a structured verdict,
or it ended without one (the default result stays in place), or the
invocation raised an exception whose `str(e)` is carried. -/
inductive AgentResult where
  | ok : HypothesisOutcome → AgentResult
  | noResult : AgentResult
  | error : String → AgentResult
deriving DecidableEq, Repr

/-- Run metrics extracted from the SDK message stream
(`total_tokens`, `cost_usd`, `num_turns`, tracked script paths). -/
structure AgentRunMetrics where
  turns : Nat
  total_tokens : Nat
  cost_usd : Rat
  scripts_created : List String
deriving DecidableEq, Repr

/-- Everything environment-dependent about one SDK invocation: its result,
its metrics, the wall-clock strings, and the session-log reference produced
by `session_log.get_session_log_ref`. -/
structure AgentInvocation where
  result : AgentResult
  metrics : AgentRunMetrics
  start_time : String
  end_time : String
  log_ref : String
deriving DecidableEq, Repr

/-- Default result installed before the try block
(`analysis_execution.py` lines 187-192), kept when the stream yields no
`ResultMessage`. -/
def defaultHypothesisOutcome : HypothesisOutcome :=
  { outcome := Outcome.RULED_OUT
    evidence := "Analysis could not be completed"
    confidence := Confidence.LOW
    key_metrics := [] }

/-- Value of `parsed_result` after the try/except of
`_investigate_hypothesis_with_sdk` (lines 194-254): the structured verdict
when one arrived, the default when none did, and the synthetic
RULED_OUT/LOW verdict carrying `f"Analysis failed: {e}"` when the
invocation raised. -/
def parsedResult : AgentResult → HypothesisOutcome
  | AgentResult.ok r => r
  | AgentResult.noResult => defaultHypothesisOutcome
  | AgentResult.error e =>
      { outcome := Outcome.RULED_OUT
        evidence := "Analysis failed: " ++ e
        confidence := Confidence.LOW
        key_metrics := [] }

/-- `_investigate_hypothesis_with_sdk` (lines 148-303) minus the log-file
I/O: builds the `SessionLog` entry and the `Finding` from `parsed_result`.
This function never raises — any error of the agent invocation is absorbed
into `parsedResult` by the inner except (lines 247-254). -/
def investigateHypothesisWithSdk (hypothesis : Hypothesis)
    (inv : AgentInvocation) : SessionLog × Finding :=
  let r := parsedResult inv.result
  let log_entry : SessionLog :=
    { hypothesis_id := hypothesis.id
      start_time := inv.start_time
      end_time := inv.end_time
      outcome := r.outcome
      turns := inv.metrics.turns
      total_tokens := inv.metrics.total_tokens
      cost_usd := inv.metrics.cost_usd
      key_findings := r.key_metrics
      scripts_created := inv.metrics.scripts_created
      artifacts_created := [] }
  let finding : Finding :=
    { finding_id := "F" ++ hypothesis.id
      hypothesis_id := hypothesis.id
      outcome := r.outcome
      evidence := r.evidence
      confidence := r.confidence
      key_metrics := r.key_metrics
      session_log_ref := inv.log_ref
      completed_at := inv.end_time }
  (log_entry, finding)

/-- `hypothesis["status"] = finding["outcome"]` (line 379): the outcome
string is stored into the status field. -/
def statusOfOutcome : Outcome → HypothesisStatus
  | Outcome.CONFIRMED => HypothesisStatus.CONFIRMED
  | Outcome.RULED_OUT => HypothesisStatus.RULED_OUT

/-- Accumulated node output of `analysis_execution`
(`updated_hypotheses`, `all_findings`, `all_session_logs`). -/
structure AnalysisRunResult where
  hypotheses : List Hypothesis
  findings_ledger : List Finding
  session_logs : List SessionLog
deriving DecidableEq, Repr

/-- The per-hypothesis loop of `analysis_execution` (lines 359-396).
`agent i` is the SDK behavior on the i-th hypothesis. Each hypothesis is
first marked INVESTIGATING, then investigated, then its status set to the
finding's outcome; in this embedding `investigateHypothesisWithSdk` is
total, so the outer except (lines 391-394, which forces RULED_OUT when
log-file I/O around the investigation raises) is unreachable. -/
def analysisLoop (agent : Nat → AgentInvocation) :
    Nat → List Hypothesis → AnalysisRunResult
  | _, [] => { hypotheses := [], findings_ledger := [], session_logs := [] }
  | i, hypothesis :: rest =>
    let step := investigateHypothesisWithSdk
      { hypothesis with status := HypothesisStatus.INVESTIGATING } (agent i)
    let h' := { hypothesis with status := statusOfOutcome step.2.outcome }
    let r := analysisLoop agent (i + 1) rest
    { hypotheses := h' :: r.hypotheses
      findings_ledger := step.2 :: r.findings_ledger
      session_logs := step.1 :: r.session_logs }

/-- `analysis_execution` (lines 306-410) restricted to what the claims are
about: initialize the findings ledger file, run the per-hypothesis loop,
and append each produced finding to the ledger file in loop order. Returns
the node's state update and the final ledger file. -/
def analysis_execution (agent : Nat → AgentInvocation)
    (hyps : List Hypothesis) (session_id now : String)
    (file : Option Ledger) : AnalysisRunResult × Option Ledger :=
  let file1 := fsInitializeLedger session_id now file
  let r := analysisLoop agent 0 hyps
  (r, fsAddFindings session_id now r.findings_ledger file1)

/-! ### Loop characterization lemmas -/

/-- Output list lengths of the loop equal the input length. -/
theorem analysisLoop_lengths (agent : Nat → AgentInvocation) (i : Nat)
    (hyps : List Hypothesis) :
    (analysisLoop agent i hyps).hypotheses.length = hyps.length
      ∧ (analysisLoop agent i hyps).findings_ledger.length = hyps.length
      ∧ (analysisLoop agent i hyps).session_logs.length = hyps.length := by
  induction hyps generalizing i with
  | nil => simp [analysisLoop]
  | cons hypothesis rest ih =>
    have h := ih (i + 1)
    simp [analysisLoop, h.1, h.2.1, h.2.2]

/-- The j-th produced finding is the one built from the j-th hypothesis and
the j-th agent invocation. -/
theorem analysisLoop_finding_get (agent : Nat → AgentInvocation) (i : Nat)
    (hyps : List Hypothesis) (j : Nat) :
    (analysisLoop agent i hyps).findings_ledger[j]?
      = (hyps[j]?).map fun hypothesis =>
          (investigateHypothesisWithSdk
            { hypothesis with status := HypothesisStatus.INVESTIGATING }
            (agent (i + j))).2 := by
  induction hyps generalizing i j with
  | nil => simp [analysisLoop]
  | cons hypothesis rest ih =>
    cases j with
    | zero => simp [analysisLoop]
    | succ k =>
      simp only [analysisLoop, List.getElem?_cons_succ]
      rw [ih (i + 1) k]
      have : i + 1 + k = i + (k + 1) := by omega
      rw [this]

/-- The j-th output hypothesis is the j-th input hypothesis with its status
replaced by the outcome of its investigation. -/
theorem analysisLoop_hypothesis_get (agent : Nat → AgentInvocation) (i : Nat)
    (hyps : List Hypothesis) (j : Nat) :
    (analysisLoop agent i hyps).hypotheses[j]?
      = (hyps[j]?).map fun hypothesis =>
          { hypothesis with
            status := statusOfOutcome
              (investigateHypothesisWithSdk
                { hypothesis with status := HypothesisStatus.INVESTIGATING }
                (agent (i + j))).2.outcome } := by
  induction hyps generalizing i j with
  | nil => simp [analysisLoop]
  | cons hypothesis rest ih =>
    cases j with
    | zero => simp [analysisLoop]
    | succ k =>
      simp only [analysisLoop, List.getElem?_cons_succ]
      rw [ih (i + 1) k]
      have : i + 1 + k = i + (k + 1) := by omega
      rw [this]

/-- Full characterization of the produced findings: one finding per input
hypothesis, in order, each built from its own agent invocation. -/
theorem analysisLoop_findings_eq_map (agent : Nat → AgentInvocation) (i : Nat)
    (hyps : List Hypothesis) :
    (analysisLoop agent i hyps).findings_ledger
      = (List.enumFrom i hyps).map fun p =>
          (investigateHypothesisWithSdk
            { p.2 with status := HypothesisStatus.INVESTIGATING }
            (agent p.1)).2 := by
  induction hyps generalizing i with
  | nil => simp [analysisLoop]
  | cons hypothesis rest ih =>
    simp [analysisLoop, List.enumFrom, ih (i + 1)]

/-- Full characterization of the updated hypotheses: each input hypothesis,
in order, with its status replaced by its investigation's outcome. -/
theorem analysisLoop_hypotheses_eq_map (agent : Nat → AgentInvocation) (i : Nat)
    (hyps : List Hypothesis) :
    (analysisLoop agent i hyps).hypotheses
      = (List.enumFrom i hyps).map fun p =>
          { p.2 with
            status := statusOfOutcome
              (investigateHypothesisWithSdk
                { p.2 with status := HypothesisStatus.INVESTIGATING }
                (agent p.1)).2.outcome } := by
  induction hyps generalizing i with
  | nil => simp [analysisLoop]
  | cons hypothesis rest ih =>
    simp [analysisLoop, List.enumFrom, ih (i + 1)]

/-- The final ledger file of `analysis_execution` stores exactly the
produced findings, in order. -/
theorem analysis_execution_storedFindings (agent : Nat → AgentInvocation)
    (hyps : List Hypothesis) (session_id now : String) (file : Option Ledger) :
    storedFindings (analysis_execution agent hyps session_id now file).2
      = (analysisLoop agent 0 hyps).findings_ledger := by
  simp only [analysis_execution, fsInitializeLedger]
  rw [fsAddFindings_some]
  simp [storedFindings, appendFindings_findings, initFindingsLedger]

/-- C3: if the reasoning-agent invocation for the j-th hypothesis raises an
error `e`, that hypothesis ends RULED_OUT, a synthetic Finding with outcome
RULED_OUT, confidence LOW and the error text as evidence sits at position j
of the produced findings and is stored in the Findings Ledger, and every
other hypothesis is still processed: the produced findings are exactly one
per input hypothesis, in order. -/
theorem agent_error_yields_ruled_out_finding_and_loop_continues
    (agent : Nat → AgentInvocation) (hyps : List Hypothesis)
    (session_id now : String) (file : Option Ledger) (j : Nat) (e : String)
    (hj : j < hyps.length) (he : (agent j).result = AgentResult.error e) :
    let out := analysis_execution agent hyps session_id now file
    ((out.1.hypotheses[j]?).map Hypothesis.status
        = some HypothesisStatus.RULED_OUT)
      ∧ (∃ f, out.1.findings_ledger[j]? = some f
          ∧ f.outcome = Outcome.RULED_OUT
          ∧ f.confidence = Confidence.LOW
          ∧ f.evidence = "Analysis failed: " ++ e
          ∧ f ∈ storedFindings out.2)
      ∧ out.1.hypotheses.length = hyps.length
      ∧ out.1.findings_ledger.length = hyps.length
      ∧ out.1.findings_ledger
          = (List.enumFrom 0 hyps).map fun p =>
              (investigateHypothesisWithSdk
                { p.2 with status := HypothesisStatus.INVESTIGATING }
                (agent p.1)).2 := by
  intro out
  have hout1 : out.1 = analysisLoop agent 0 hyps := rfl
  obtain ⟨hy, hhy⟩ : ∃ hy, hyps[j]? = some hy :=
    ⟨hyps[j], List.getElem?_eq_getElem hj⟩
  have hlen := analysisLoop_lengths agent 0 hyps
  refine ⟨?_, ?_, hlen.1, hlen.2.1, analysisLoop_findings_eq_map agent 0 hyps⟩
  · rw [hout1, analysisLoop_hypothesis_get agent 0 hyps j, hhy]
    simp [investigateHypothesisWithSdk, parsedResult, he, statusOfOutcome]
  · refine ⟨(investigateHypothesisWithSdk
      { hy with status := HypothesisStatus.INVESTIGATING } (agent j)).2,
      ?_, ?_, ?_, ?_, ?_⟩
    · rw [hout1, analysisLoop_finding_get agent 0 hyps j, hhy]
      simp
    · simp [investigateHypothesisWithSdk, parsedResult, he]
    · simp [investigateHypothesisWithSdk, parsedResult, he]
    · simp [investigateHypothesisWithSdk, parsedResult, he]
    · rw [analysis_execution_storedFindings]
      have : (analysisLoop agent 0 hyps).findings_ledger[j]?
          = some (investigateHypothesisWithSdk
              { hy with status := HypothesisStatus.INVESTIGATING } (agent j)).2 := by
        rw [analysisLoop_finding_get agent 0 hyps j, hhy]
        simp
      exact List.getElem?_mem this

/-- Concrete agent behavior for witnesses: the first hypothesis's invocation
raises "boom", the second returns a CONFIRMED verdict. -/
def agentW : Nat → AgentInvocation := fun i =>
  if i = 0 then
    { result := AgentResult.error "boom"
      metrics := { turns := 0, total_tokens := 0, cost_usd := 0, scripts_created := [] }
      start_time := "2026-01-01T00:00:00"
      end_time := "2026-01-01T00:01:00"
      log_ref := "analysis/logs/session_H1_20260101T000000.json" }
  else
    { result := AgentResult.ok
        { outcome := Outcome.CONFIRMED
          evidence := "segment west fell 12%"
          confidence := Confidence.HIGH
          key_metrics := ["west: -12%"] }
      metrics := { turns := 3, total_tokens := 1200, cost_usd := 1/100, scripts_created := ["analysis/scripts/h2.py"] }
      start_time := "2026-01-01T00:01:00"
      end_time := "2026-01-01T00:02:00"
      log_ref := "analysis/logs/session_H2_20260101T000100.json" }

/-- Concrete two-hypothesis list for witnesses. -/
def hypsW : List Hypothesis :=
  [ { id := "H1", title := "Mix shift", causal_story := "mix moved",
      dimensions := ["region"], expected_pattern := "share change",
      priority := 1, status := HypothesisStatus.PENDING },
    { id := "H2", title := "Region drop", causal_story := "west fell",
      dimensions := ["region"], expected_pattern := "west down",
      priority := 2, status := HypothesisStatus.PENDING } ]

/-- Witness for C3 at a concrete input: two hypotheses, the first one's
invocation raising "boom". -/
theorem agent_error_yields_ruled_out_finding_witness :
    (let out := analysis_execution agentW hypsW "s1" "t0" none
     ((out.1.hypotheses[0]?).map Hypothesis.status
         = some HypothesisStatus.RULED_OUT)
       ∧ (∃ f, out.1.findings_ledger[0]? = some f
           ∧ f.outcome = Outcome.RULED_OUT
           ∧ f.confidence = Confidence.LOW
           ∧ f.evidence = "Analysis failed: " ++ "boom"
           ∧ f ∈ storedFindings out.2)
       ∧ out.1.hypotheses.length = hypsW.length
       ∧ out.1.findings_ledger.length = hypsW.length
       ∧ out.1.findings_ledger
           = (List.enumFrom 0 hypsW).map fun p =>
               (investigateHypothesisWithSdk
                 { p.2 with status := HypothesisStatus.INVESTIGATING }
                 (agentW p.1)).2) :=
  agent_error_yields_ruled_out_finding_and_loop_continues
    agentW hypsW "s1" "t0" none 0 "boom" (by decide) (by decide)

/-- C4: after the analysis-execution stage completes, every hypothesis in
the resulting state has status CONFIRMED or RULED_OUT — none is left
PENDING or INVESTIGATING. -/
theorem all_hypotheses_terminal_after_analysis_execution
    (agent : Nat → AgentInvocation) (hyps : List Hypothesis)
    (session_id now : String) (file : Option Ledger) (h : Hypothesis)
    (hmem : h ∈ (analysis_execution agent hyps session_id now file).1.hypotheses) :
    h.status = HypothesisStatus.CONFIRMED
      ∨ h.status = HypothesisStatus.RULED_OUT := by
  have hout : (analysis_execution agent hyps session_id now file).1
      = analysisLoop agent 0 hyps := rfl
  rw [hout, analysisLoop_hypotheses_eq_map agent 0 hyps] at hmem
  obtain ⟨p, _, hp⟩ := List.mem_map.mp hmem
  cases ho : (investigateHypothesisWithSdk
      { p.2 with status := HypothesisStatus.INVESTIGATING }
      (agent p.1)).2.outcome with
  | CONFIRMED =>
    left
    rw [← hp]
    simp [statusOfOutcome, ho]
  | RULED_OUT =>
    right
    rw [← hp]
    simp [statusOfOutcome, ho]

/-- Witness for C4 at a concrete input: the first updated hypothesis of the
concrete run is terminal. -/
theorem all_hypotheses_terminal_witness :
    ({ id := "H1", title := "Mix shift", causal_story := "mix moved",
       dimensions := ["region"], expected_pattern := "share change",
       priority := 1,
       status := HypothesisStatus.RULED_OUT : Hypothesis }.status
        = HypothesisStatus.CONFIRMED)
      ∨ ({ id := "H1", title := "Mix shift", causal_story := "mix moved",
           dimensions := ["region"], expected_pattern := "share change",
           priority := 1,
           status := HypothesisStatus.RULED_OUT : Hypothesis }.status
          = HypothesisStatus.RULED_OUT) :=
  all_hypotheses_terminal_after_analysis_execution
    agentW hypsW "s1" "t0" none _ (by decide)

/-! ### Data model and investigation state (`src/agent/src/state.py`) -/

/-- `ColumnSchema` TypedDict from `state.py`. `inferred_type` is
`Literal["dimension", "measure", "id", "timestamp"]`, kept as a string. -/
structure ColumnSchema where
  name : String
  inferred_type : String
  data_type : String
  cardinality : Nat
  sample_values : List String
  nullable : Bool
deriving DecidableEq, Repr

/-- `TableInfo` TypedDict from `state.py`. -/
structure TableInfo where
  file_id : String
  name : String
  row_count : Nat
  column_count : Nat
  columns : List ColumnSchema
deriving DecidableEq, Repr

/-- `Relationship` TypedDict from `state.py`. `confidence` (a Python float
in [0,1]) is modelled as a rational; no claim depends on float semantics. -/
structure Relationship where
  from_table : String
  from_column : String
  to_table : String
  to_column : String
  relationship_type : String
  confidence : Rat
deriving DecidableEq, Repr

/-- `DataModel` TypedDict from `state.py`. -/
structure DataModel where
  tables : List TableInfo
  relationships : List Relationship
  recommended_dimensions : List String
deriving DecidableEq, Repr

/-- A file's `schema` field, `{columns: [...]}` as written by
`schema_inference` (`file_info["schema"] = {"columns": table["columns"]}`). -/
structure FileSchema where
  columns : List ColumnSchema
deriving DecidableEq, Repr

/-- `FileInfo` TypedDict from `state.py`. -/
structure FileInfo where
  file_id : String
  name : String
  path : String
  description : String
  schema : Option FileSchema
deriving DecidableEq, Repr

/-- `DateRange` TypedDict from `state.py`. -/
structure DateRange where
  start : String
  «end» : String
deriving DecidableEq, Repr

/-- Value of the `source_file` dict `{file_id, file_name}` built by
`metric_identification`. -/
structure SourceFile where
  file_id : String
  file_name : String
deriving DecidableEq, Repr

/-- `MetricRequirements` TypedDict from `state.py`. -/
structure MetricRequirements where
  target_metric : String
  source_file : Option SourceFile
  validated : Bool
  error_message : Option String
deriving DecidableEq, Repr

/-- `Evidence` TypedDict from `state.py`. -/
structure Evidence where
  metric : String
  value : String
  interpretation : String
deriving DecidableEq, Repr

/-- `Explanation` TypedDict from `state.py`. `likelihood` is
`Literal["Most Likely", "Likely", "Possible", "Less Likely"]`,
kept as a string. -/
structure Explanation where
  rank : Nat
  title : String
  likelihood : String
  evidence : List Evidence
  reasoning : String
  causal_story : String
  source_hypotheses : List String
deriving DecidableEq, Repr

/-- `InvestigationState` TypedDict from `state.py` (the fields the verified
nodes read; `investigation_prompt`, `report_path` and
`memory_document_id` are never read by them and are omitted). `status` is
`Literal["running", "completed", "failed", "no_findings"]` as a string. -/
structure InvestigationState where
  session_id : String
  files : List FileInfo
  business_context : String
  target_metric : String
  metric_definition : String
  baseline_period : DateRange
  comparison_period : DateRange
  data_model : Option DataModel
  selected_dimensions : Option (List String)
  metric_requirements : Option MetricRequirements
  hypotheses : List Hypothesis
  findings_ledger : List Finding
  session_logs : List SessionLog
  explanations : Option (List Explanation)
  status : String
  error : Option String
deriving DecidableEq, Repr

/-! ### Metric identification (`src/agent/src/nodes/metric_identification.py`)

`csv_tools.get_headers` is a collaborator: it is passed in as
`get_headers : String → Except String (List String)` mapping a file path to
its header row, `Except.error` modelling a raised exception. -/

/-- Python `str.lower()`, mapped over the characters. (`String.toLower`
does exactly this; this character-list form evaluates inside `decide`.) -/
def pyLower (s : String) : String := String.mk (s.data.map Char.toLower)

/-- Case-insensitive exact match on a column name against the target,
`col_name.lower() == target_metric.lower()`. -/
def matchesTarget (target col : String) : Bool := pyLower col == pyLower target

/-- Tables of the data model after the falsy check
`if data_model and data_model.get("tables")` (a missing model contributes
no tables). -/
def tablesOf : Option DataModel → List TableInfo
  | none => []
  | some dm => dm.tables

/-- First loop of `metric_identification` (lines 47-67): scan the data-model
tables in order; the first table holding a matching column wins and the
result references `{table["file_id"], table["name"]}`. -/
def findInDataModelTables (target : String) : List TableInfo → Option SourceFile
  | [] => none
  | t :: rest =>
    match t.columns.find? (fun c => matchesTarget target c.name) with
    | some _ => some { file_id := t.file_id, file_name := t.name }
    | none => findInDataModelTables target rest

/-- Second loop (lines 70-91): scan each file's pre-existing `schema`
(skipped when absent); a matching schema column returns
`{file_info["file_id"], file_info["name"]}`. -/
def findInFileSchemas (target : String) : List FileInfo → Option SourceFile
  | [] => none
  | fi :: rest =>
    match fi.schema with
    | some sch =>
      match sch.columns.find? (fun c => matchesTarget target c.name) with
      | some _ => some { file_id := fi.file_id, file_name := fi.name }
      | none => findInFileSchemas target rest
    | none => findInFileSchemas target rest

/-- Third loop (lines 96-117): read each file's raw headers via
`csv_tools.get_headers`; a file whose read raises is skipped (the except
at lines 116-117); a matching header returns
`{file_info["file_id"], file_info["name"]}`. -/
def findInRawHeaders (get_headers : String → Except String (List String))
    (target : String) : List FileInfo → Option SourceFile
  | [] => none
  | fi :: rest =>
    match get_headers fi.path with
    | Except.ok headers =>
      if headers.any (fun h => matchesTarget target h) then
        some { file_id := fi.file_id, file_name := fi.name }
      else findInRawHeaders get_headers target rest
    | Except.error _ => findInRawHeaders get_headers target rest

/-- Column names the first loop feeds into `all_columns`. -/
def dataModelColumns (dm : Option DataModel) : List String :=
  (tablesOf dm).flatMap fun t => t.columns.map (fun c => c.name)

/-- Column names the second loop feeds into `all_columns`. -/
def fileSchemaColumns (files : List FileInfo) : List String :=
  files.flatMap fun fi =>
    match fi.schema with
    | some sch => sch.columns.map (fun c => c.name)
    | none => []

/-- Header names the third loop feeds into `all_columns` (files whose read
raises contribute nothing). -/
def rawHeaderColumns (get_headers : String → Except String (List String))
    (files : List FileInfo) : List String :=
  files.flatMap fun fi =>
    match get_headers fi.path with
    | Except.ok headers => headers
    | Except.error _ => []

/-- Lexicographic code-point comparison of character lists, Python's `<=`
on strings. -/
def charListLe : List Char → List Char → Bool
  | [], _ => true
  | _ :: _, [] => false
  | a :: as, b :: bs =>
    if a.toNat < b.toNat then true
    else if b.toNat < a.toNat then false
    else charListLe as bs

/-- Python string `<=` (code-point lexicographic, as `sorted` uses). -/
def pyStrLe (a b : String) : Bool := charListLe a.data b.data

/-- `charListLe` is total. -/
theorem charListLe_total (as bs : List Char) :
    charListLe as bs = true ∨ charListLe bs as = true := by
  induction as generalizing bs with
  | nil => left; simp [charListLe]
  | cons a as ih =>
    cases bs with
    | nil => right; simp [charListLe]
    | cons b bs =>
      by_cases hab : a.toNat < b.toNat
      · left; simp [charListLe, hab]
      · by_cases hba : b.toNat < a.toNat
        · right; simp [charListLe, hba]
        · rcases ih bs with h | h
          · left; simp [charListLe, hab, hba, h]
          · right; simp [charListLe, hab, hba, h]

/-- Unfolding of `charListLe` on two cons cells. -/
theorem charListLe_cons_iff (a b : Char) (as bs : List Char) :
    charListLe (a :: as) (b :: bs) = true
      ↔ a.toNat < b.toNat ∨ (a.toNat = b.toNat ∧ charListLe as bs = true) := by
  simp only [charListLe]
  split_ifs with h1 h2
  · simp [h1]
  · simp only [Bool.false_eq_true, false_iff]
    rintro (h | ⟨h, -⟩) <;> omega
  · have heq : a.toNat = b.toNat := by omega
    simp [heq, Nat.lt_irrefl]

/-- `charListLe` is transitive. -/
theorem charListLe_trans (as bs cs : List Char)
    (h1 : charListLe as bs = true) (h2 : charListLe bs cs = true) :
    charListLe as cs = true := by
  induction as generalizing bs cs with
  | nil => simp [charListLe]
  | cons a as ih =>
    cases bs with
    | nil => simp [charListLe] at h1
    | cons b bs =>
      cases cs with
      | nil => simp [charListLe] at h2
      | cons c cs =>
        rw [charListLe_cons_iff] at h1 h2 ⊢
        rcases h1 with h1 | ⟨h1e, h1r⟩
        · rcases h2 with h2 | ⟨h2e, h2r⟩
          · left; omega
          · left; omega
        · rcases h2 with h2 | ⟨h2e, h2r⟩
          · left; omega
          · right; exact ⟨by omega, ih bs cs h1r h2r⟩

instance : IsTotal String (fun a b => pyStrLe a b = true) :=
  ⟨fun a b => charListLe_total a.data b.data⟩

instance : IsTrans String (fun a b => pyStrLe a b = true) :=
  ⟨fun a b c => charListLe_trans a.data b.data c.data⟩

/-- `sorted(all_columns)` where `all_columns` is a Python set: the observed
names deduplicated and sorted ascending by Python string comparison. -/
def sortedUniqueColumns (cols : List String) : List String :=
  (cols.dedup).insertionSort (fun a b => pyStrLe a b = true)

/-- Error message of the no-match branch (lines 120-124). -/
def noMatchErrorMessage (target : String) (sorted_columns : List String) : String :=
  "Column '" ++ target ++ "' not found in any uploaded file. Available columns: "
    ++ String.intercalate ", " sorted_columns

/-- `metric_identification` (lines 15-135): empty target short-circuits to
a validation failure; otherwise the three sources are searched in order
(data model, per-file schemas, raw headers) and the first case-insensitive
match wins; with no match anywhere the result carries the error message
enumerating all observed columns, deduplicated and sorted. -/
def metric_identification (get_headers : String → Except String (List String))
    (state : InvestigationState) : MetricRequirements :=
  let target_metric := state.target_metric
  if target_metric = "" then
    { target_metric := ""
      source_file := none
      validated := false
      error_message := some "Target metric column name is required" }
  else
    match findInDataModelTables target_metric (tablesOf state.data_model) with
    | some src =>
      { target_metric := target_metric, source_file := some src
        validated := true, error_message := none }
    | none =>
      match findInFileSchemas target_metric state.files with
      | some src =>
        { target_metric := target_metric, source_file := some src
          validated := true, error_message := none }
      | none =>
        match findInRawHeaders get_headers target_metric state.files with
        | some src =>
          { target_metric := target_metric, source_file := some src
            validated := true, error_message := none }
        | none =>
          let all_columns := dataModelColumns state.data_model
            ++ fileSchemaColumns state.files
            ++ rawHeaderColumns get_headers state.files
          { target_metric := target_metric
            source_file := none
            validated := false
            error_message := some (noMatchErrorMessage target_metric
              (sortedUniqueColumns all_columns)) }

/-! ### Graph edge predicates (`src/agent/src/graph.py`) -/

/-- `should_continue_after_metric_validation` (graph.py lines 26-34). -/
def should_continue_after_metric_validation (state : InvestigationState) : String :=
  match state.metric_requirements with
  | some r => if r.validated then "continue" else "error"
  | none => "error"

/-- `should_generate_report` (graph.py lines 37-47). -/
def should_generate_report (state : InvestigationState) : String :=
  let confirmed := state.findings_ledger.filter
    fun f => decide (f.outcome = Outcome.CONFIRMED)
  if confirmed ≠ [] then "report" else "no_findings"

/-- Node update returned by `error_exit` (graph.py lines 50-57). -/
structure ErrorExitUpdate where
  status : String
  error : Option String
deriving DecidableEq, Repr

/-- `error_exit` (graph.py lines 50-57): terminal failure state. Its error
field is `state.get("metric_requirements", {}).get("error_message", ...)`:
the stored message when a requirements record exists (even when that
message is None), the fallback string when none does. -/
def error_exit (state : InvestigationState) : ErrorExitUpdate :=
  { status := "failed"
    error :=
      match state.metric_requirements with
      | some r => r.error_message
      | none => some "Metric validation failed" }

/-! ### Spec-side description of the metric lookup

The spec says: "Searches, in order: (a) DataModel columns, (b) any
pre-existing per-file schema, (c) raw header read via Tabular Source
Reader. Match is case-insensitive exact string match on column name. First
match wins; returns validated=true with a reference to the owning file."
The following definitions transcribe those words; claim C5 compares them
with the implementation. -/

/-- Column names of a file's pre-existing schema (empty when absent). -/
def specSchemaColumnsOf (fi : FileInfo) : List String :=
  match fi.schema with
  | some sch => sch.columns.map (fun c => c.name)
  | none => []

/-- Raw headers of a file per the header-reader collaborator (empty when
the read fails). -/
def specHeadersOf (get_headers : String → Except String (List String))
    (fi : FileInfo) : List String :=
  match get_headers fi.path with
  | Except.ok headers => headers
  | Except.error _ => []

/-- Spec-side ordered candidate list: every (column name, owning file) pair,
DataModel columns first, then per-file schema columns, then raw headers. -/
def specOrderedCandidates (get_headers : String → Except String (List String))
    (state : InvestigationState) : List (String × SourceFile) :=
  ((tablesOf state.data_model).flatMap fun t =>
      t.columns.map fun c =>
        (c.name, ({ file_id := t.file_id, file_name := t.name } : SourceFile)))
    ++ (state.files.flatMap fun fi =>
      (specSchemaColumnsOf fi).map fun n =>
        (n, ({ file_id := fi.file_id, file_name := fi.name } : SourceFile)))
    ++ (state.files.flatMap fun fi =>
      (specHeadersOf get_headers fi).map fun n =>
        (n, ({ file_id := fi.file_id, file_name := fi.name } : SourceFile)))

/-- Spec-side lookup: the first candidate whose name matches the target
case-insensitively wins; the owning file is returned. -/
def specFirstMatch (get_headers : String → Except String (List String))
    (state : InvestigationState) : Option SourceFile :=
  ((specOrderedCandidates get_headers state).find?
    fun p => matchesTarget state.target_metric p.1).map Prod.snd


/-- Finding the first matching pair among column pairs tagged with a
constant owner is finding the first matching column. -/
theorem find?_column_pairs (target : String) (cols : List ColumnSchema)
    (src : SourceFile) :
    ((cols.map fun c => (c.name, src)).find? fun p => matchesTarget target p.1)
      = ((cols.find? fun c => matchesTarget target c.name).map
          fun c => (c.name, src)) :=
  List.find?_map _ cols

/-- The same, for a list of plain header names. -/
theorem find?_header_pairs (target : String) (headers : List String)
    (src : SourceFile) :
    ((headers.map fun n => (n, src)).find? fun p => matchesTarget target p.1)
      = ((headers.find? fun n => matchesTarget target n).map
          fun n => (n, src)) :=
  List.find?_map _ headers

/-- A successful `find?` makes `any` true. -/
theorem any_of_find?_some {α : Type} {p : α → Bool} {l : List α} {a : α}
    (h : l.find? p = some a) : l.any p = true :=
  List.any_eq_true.mpr ⟨a, List.mem_of_find?_eq_some h, List.find?_some h⟩

/-- A failed `find?` makes `any` false. -/
theorem any_of_find?_none {α : Type} {p : α → Bool} {l : List α}
    (h : l.find? p = none) : l.any p = false := by
  rw [Bool.eq_false_iff]
  intro hany
  obtain ⟨x, hx, hpx⟩ := List.any_eq_true.mp hany
  exact absurd hpx (by simpa using List.find?_eq_none.mp h x hx)

/-- The first `metric_identification` loop agrees with the spec-side search
restricted to DataModel candidates. -/
theorem findInDataModelTables_eq_spec (target : String) (ts : List TableInfo) :
    findInDataModelTables target ts
      = ((ts.flatMap fun t => t.columns.map fun c =>
            (c.name, ({ file_id := t.file_id, file_name := t.name } : SourceFile))).find?
          fun p => matchesTarget target p.1).map Prod.snd := by
  induction ts with
  | nil => simp [findInDataModelTables]
  | cons t rest ih =>
    have hp := find?_column_pairs target t.columns
      ({ file_id := t.file_id, file_name := t.name } : SourceFile)
    cases hfind : t.columns.find? (fun c => matchesTarget target c.name) with
    | some c =>
      simp only [findInDataModelTables, hfind, List.flatMap_cons,
        List.find?_append, hp]
      simp
    | none =>
      simp only [findInDataModelTables, hfind, List.flatMap_cons,
        List.find?_append, hp]
      simpa using ih

/-- The second `metric_identification` loop agrees with the spec-side search
restricted to per-file schema candidates. -/
theorem findInFileSchemas_eq_spec (target : String) (files : List FileInfo) :
    findInFileSchemas target files
      = ((files.flatMap fun fi => (specSchemaColumnsOf fi).map fun n =>
            (n, ({ file_id := fi.file_id, file_name := fi.name } : SourceFile))).find?
          fun p => matchesTarget target p.1).map Prod.snd := by
  induction files with
  | nil => simp [findInFileSchemas]
  | cons fi rest ih =>
    cases hsch : fi.schema with
    | none =>
      simp only [findInFileSchemas, hsch, List.flatMap_cons, List.find?_append,
        specSchemaColumnsOf]
      simpa using ih
    | some sch =>
      have hmaps : ((sch.columns.map fun c => c.name).map fun n =>
          (n, ({ file_id := fi.file_id, file_name := fi.name } : SourceFile)))
          = sch.columns.map fun c =>
            (c.name, ({ file_id := fi.file_id, file_name := fi.name } : SourceFile)) := by
        simp [List.map_map]
      have hp := find?_column_pairs target sch.columns
        ({ file_id := fi.file_id, file_name := fi.name } : SourceFile)
      cases hfind : sch.columns.find? (fun c => matchesTarget target c.name) with
      | some c =>
        simp only [findInFileSchemas, hsch, hfind, List.flatMap_cons,
          List.find?_append, specSchemaColumnsOf, hmaps, hp]
        simp
      | none =>
        simp only [findInFileSchemas, hsch, hfind, List.flatMap_cons,
          List.find?_append, specSchemaColumnsOf, hmaps, hp]
        simpa using ih

/-- The third `metric_identification` loop agrees with the spec-side search
restricted to raw-header candidates. -/
theorem findInRawHeaders_eq_spec
    (get_headers : String → Except String (List String))
    (target : String) (files : List FileInfo) :
    findInRawHeaders get_headers target files
      = ((files.flatMap fun fi => (specHeadersOf get_headers fi).map fun n =>
            (n, ({ file_id := fi.file_id, file_name := fi.name } : SourceFile))).find?
          fun p => matchesTarget target p.1).map Prod.snd := by
  induction files with
  | nil => simp [findInRawHeaders]
  | cons fi rest ih =>
    cases hread : get_headers fi.path with
    | error e =>
      simp only [findInRawHeaders, hread, List.flatMap_cons, List.find?_append,
        specHeadersOf]
      simpa using ih
    | ok headers =>
      have hp := find?_header_pairs target headers
        ({ file_id := fi.file_id, file_name := fi.name } : SourceFile)
      cases hfind : headers.find? (fun h => matchesTarget target h) with
      | some h =>
        have hany := any_of_find?_some hfind
        simp only [findInRawHeaders, hread, hany, List.flatMap_cons,
          List.find?_append, specHeadersOf, hp, hfind]
        simp
      | none =>
        have hany := any_of_find?_none hfind
        simp only [findInRawHeaders, hread, hany, List.flatMap_cons,
          List.find?_append, specHeadersOf, hp, hfind]
        simpa using ih

/-- `Option.map` distributes over `Option.or`. -/
theorem option_map_or {α β : Type} (x y : Option α) (f : α → β) :
    (x.or y).map f = (x.map f).or (y.map f) := by
  cases x <;> simp

/-- The spec-side lookup is the three implementation loops cascaded in
order. -/
theorem specFirstMatch_eq_cascade
    (get_headers : String → Except String (List String))
    (state : InvestigationState) :
    specFirstMatch get_headers state
      = (findInDataModelTables state.target_metric (tablesOf state.data_model)).or
          ((findInFileSchemas state.target_metric state.files).or
            (findInRawHeaders get_headers state.target_metric state.files)) := by
  rw [specFirstMatch, specOrderedCandidates, List.find?_append, List.find?_append,
    option_map_or, option_map_or,
    findInDataModelTables_eq_spec, findInFileSchemas_eq_spec,
    findInRawHeaders_eq_spec, Option.or_assoc]

/-- C5: with a non-empty target metric, `metric_identification` validates
exactly when the spec-side search — scan DataModel columns, then per-file
schema columns, then raw file headers, in order, for the first
case-insensitive exact match on the column name — finds a match, and the
returned reference is the owning file of that first match; the returned
record echoes the target metric and carries no error message on success. -/
theorem metric_identification_first_case_insensitive_match
    (get_headers : String → Except String (List String))
    (state : InvestigationState) (h : state.target_metric ≠ "") :
    (metric_identification get_headers state).validated
        = (specFirstMatch get_headers state).isSome
      ∧ (metric_identification get_headers state).source_file
        = specFirstMatch get_headers state
      ∧ (metric_identification get_headers state).target_metric
        = state.target_metric
      ∧ ((specFirstMatch get_headers state).isSome = true →
          (metric_identification get_headers state).error_message = none) := by
  rw [specFirstMatch_eq_cascade]
  cases hA : findInDataModelTables state.target_metric (tablesOf state.data_model) with
  | some src => simp [metric_identification, h, hA, Option.or]
  | none =>
    cases hB : findInFileSchemas state.target_metric state.files with
    | some src => simp [metric_identification, h, hA, hB, Option.or]
    | none =>
      cases hC : findInRawHeaders get_headers state.target_metric state.files with
      | some src => simp [metric_identification, h, hA, hB, hC, Option.or]
      | none => simp [metric_identification, h, hA, hB, hC, Option.or]

/-- Header reader that always fails (models `csv_tools.get_headers`
raising `FileNotFoundError`). -/
def ghFail : String → Except String (List String) :=
  fun path => Except.error ("File not found: " ++ path)

/-- Header reader returning the headers date, region, revenue for every
path. -/
def ghDateRegionRevenue : String → Except String (List String) :=
  fun _ => Except.ok ["date", "region", "revenue"]

/-- Concrete state whose DataModel holds a lower-case "revenue" column
while the target metric is "Revenue". -/
def stRevenue : InvestigationState :=
  { session_id := "s1"
    files := [{ file_id := "f1", name := "sales.csv"
                path := "sessions/s1/files/sales.csv"
                description := "sales data", schema := none }]
    business_context := "ctx"
    target_metric := "Revenue"
    metric_definition := "sum of revenue"
    baseline_period := { start := "2026-01-01", «end» := "2026-01-31" }
    comparison_period := { start := "2026-02-01", «end» := "2026-02-28" }
    data_model := some
      { tables := [
          { file_id := "f1", name := "sales.csv", row_count := 100
            column_count := 3
            columns := [
              { name := "date", inferred_type := "timestamp"
                data_type := "date", cardinality := 30
                sample_values := [], nullable := false },
              { name := "region", inferred_type := "dimension"
                data_type := "string", cardinality := 4
                sample_values := [], nullable := false },
              { name := "revenue", inferred_type := "measure"
                data_type := "float", cardinality := 90
                sample_values := [], nullable := false } ] } ]
        relationships := []
        recommended_dimensions := ["region"] }
    selected_dimensions := some ["region"]
    metric_requirements := none
    hypotheses := []
    findings_ledger := []
    session_logs := []
    explanations := none
    status := "running"
    error := none }

/-- Witness for C5 at a concrete input: target "Revenue" against a
DataModel column named "revenue" — the case-insensitive match validates
and references the owning file. -/
theorem metric_identification_case_insensitive_witness :
    stRevenue.target_metric ≠ ""
      ∧ ((metric_identification ghFail stRevenue).validated
            = (specFirstMatch ghFail stRevenue).isSome
          ∧ (metric_identification ghFail stRevenue).source_file
            = specFirstMatch ghFail stRevenue
          ∧ (metric_identification ghFail stRevenue).target_metric
            = stRevenue.target_metric
          ∧ ((specFirstMatch ghFail stRevenue).isSome = true →
              (metric_identification ghFail stRevenue).error_message = none))
      ∧ (metric_identification ghFail stRevenue).validated = true
      ∧ (metric_identification ghFail stRevenue).source_file
        = some { file_id := "f1", file_name := "sales.csv" } :=
  ⟨by decide,
    metric_identification_first_case_insensitive_match ghFail stRevenue (by decide),
    by decide, by decide⟩

/-- C6: with a non-empty target metric matching none of the three sources,
`metric_identification` returns validated=false with the error message
enumerating the observed column names sorted and duplicate-free (exactly
the observed names), the conditional edge then routes to "error", and
`error_exit` sets status "failed" recording that message. -/
theorem metric_identification_no_match_error_and_error_exit
    (get_headers : String → Except String (List String))
    (state : InvestigationState) (h : state.target_metric ≠ "")
    (hnone : specFirstMatch get_headers state = none) :
    (metric_identification get_headers state).validated = false
      ∧ (metric_identification get_headers state).source_file = none
      ∧ (metric_identification get_headers state).error_message
        = some (noMatchErrorMessage state.target_metric
            (sortedUniqueColumns (dataModelColumns state.data_model
              ++ fileSchemaColumns state.files
              ++ rawHeaderColumns get_headers state.files)))
      ∧ List.Sorted (fun a b => pyStrLe a b = true)
          (sortedUniqueColumns (dataModelColumns state.data_model
            ++ fileSchemaColumns state.files
            ++ rawHeaderColumns get_headers state.files))
      ∧ (sortedUniqueColumns (dataModelColumns state.data_model
            ++ fileSchemaColumns state.files
            ++ rawHeaderColumns get_headers state.files)).Nodup
      ∧ (sortedUniqueColumns (dataModelColumns state.data_model
            ++ fileSchemaColumns state.files
            ++ rawHeaderColumns get_headers state.files)).Perm
          (dataModelColumns state.data_model
            ++ fileSchemaColumns state.files
            ++ rawHeaderColumns get_headers state.files).dedup
      ∧ should_continue_after_metric_validation
          { state with metric_requirements := some (metric_identification get_headers state) } = "error"
      ∧ error_exit
          { state with metric_requirements := some (metric_identification get_headers state) }
        = { status := "failed"
            error := (metric_identification get_headers state).error_message } := by
  have hcas := specFirstMatch_eq_cascade get_headers state
  rw [hnone] at hcas
  cases hA : findInDataModelTables state.target_metric (tablesOf state.data_model) with
  | some src => rw [hA] at hcas; simp [Option.or] at hcas
  | none =>
  cases hB : findInFileSchemas state.target_metric state.files with
  | some src => rw [hA, hB] at hcas; simp [Option.or] at hcas
  | none =>
  cases hC : findInRawHeaders get_headers state.target_metric state.files with
  | some src => rw [hA, hB, hC] at hcas; simp [Option.or] at hcas
  | none =>
    refine ⟨?_, ?_, ?_, ?_, ?_, ?_, ?_, ?_⟩
    · simp [metric_identification, h, hA, hB, hC]
    · simp [metric_identification, h, hA, hB, hC]
    · simp [metric_identification, h, hA, hB, hC]
    · exact List.sorted_insertionSort _ _
    · exact ((List.perm_insertionSort _ _).nodup_iff).mpr (List.nodup_dedup _)
    · exact List.perm_insertionSort _ _
    · simp [should_continue_after_metric_validation, metric_identification, h, hA, hB, hC]
    · simp [error_exit, metric_identification, h, hA, hB, hC]

/-- Concrete state for the no-match witness: files expose columns
date, region, revenue through raw headers only; the target is "profit". -/
def stProfit : InvestigationState :=
  { stRevenue with
    target_metric := "profit"
    data_model := none
    selected_dimensions := none }

/-- Witness for C6 at the spec's own test vector: target "profit" against
columns date, region, revenue — validation fails and the message lists
exactly "date, region, revenue". -/
theorem metric_identification_no_match_witness :
    stProfit.target_metric ≠ ""
      ∧ specFirstMatch ghDateRegionRevenue stProfit = none
      ∧ ((metric_identification ghDateRegionRevenue stProfit).validated = false
          ∧ (metric_identification ghDateRegionRevenue stProfit).source_file = none
          ∧ (metric_identification ghDateRegionRevenue stProfit).error_message
            = some (noMatchErrorMessage stProfit.target_metric
                (sortedUniqueColumns (dataModelColumns stProfit.data_model
                  ++ fileSchemaColumns stProfit.files
                  ++ rawHeaderColumns ghDateRegionRevenue stProfit.files)))
          ∧ List.Sorted (fun a b => pyStrLe a b = true)
              (sortedUniqueColumns (dataModelColumns stProfit.data_model
                ++ fileSchemaColumns stProfit.files
                ++ rawHeaderColumns ghDateRegionRevenue stProfit.files))
          ∧ (sortedUniqueColumns (dataModelColumns stProfit.data_model
                ++ fileSchemaColumns stProfit.files
                ++ rawHeaderColumns ghDateRegionRevenue stProfit.files)).Nodup
          ∧ (sortedUniqueColumns (dataModelColumns stProfit.data_model
                ++ fileSchemaColumns stProfit.files
                ++ rawHeaderColumns ghDateRegionRevenue stProfit.files)).Perm
              (dataModelColumns stProfit.data_model
                ++ fileSchemaColumns stProfit.files
                ++ rawHeaderColumns ghDateRegionRevenue stProfit.files).dedup
          ∧ should_continue_after_metric_validation
              { stProfit with metric_requirements := some (metric_identification ghDateRegionRevenue stProfit) } = "error"
          ∧ error_exit
              { stProfit with metric_requirements := some (metric_identification ghDateRegionRevenue stProfit) }
            = { status := "failed"
                error := (metric_identification ghDateRegionRevenue stProfit).error_message })
      ∧ (metric_identification ghDateRegionRevenue stProfit).error_message
        = some "Column 'profit' not found in any uploaded file. Available columns: date, region, revenue" :=
  ⟨by decide, by decide,
    metric_identification_no_match_error_and_error_exit ghDateRegionRevenue stProfit
      (by decide) (by decide),
    by decide⟩

/-- C10: with an empty target metric, `metric_identification` returns the
fixed requirement "Target metric column name is required" with
validated=false — independently of the header reader, the files and the
data model, so no schema is inspected and no file is read — and the
conditional edge routes to `error_exit`, which sets status "failed"
recording that message. -/
theorem empty_target_metric_fails_validation
    (get_headers : String → Except String (List String))
    (state : InvestigationState) (h : state.target_metric = "") :
    metric_identification get_headers state
        = { target_metric := "", source_file := none, validated := false,
            error_message := some "Target metric column name is required" }
      ∧ should_continue_after_metric_validation
          { state with metric_requirements := some (metric_identification get_headers state) } = "error"
      ∧ error_exit
          { state with metric_requirements := some (metric_identification get_headers state) }
        = { status := "failed"
            error := some "Target metric column name is required" } := by
  refine ⟨?_, ?_, ?_⟩
  · simp [metric_identification, h]
  · simp [should_continue_after_metric_validation, metric_identification, h]
  · simp [error_exit, metric_identification, h]

/-- Concrete state with an empty target metric. -/
def stEmptyTarget : InvestigationState := { stRevenue with target_metric := "" }

/-- Witness for C10 at a concrete input: empty target metric with a failing
header reader and a populated data model. -/
theorem empty_target_metric_fails_validation_witness :
    stEmptyTarget.target_metric = ""
      ∧ (metric_identification ghFail stEmptyTarget
          = { target_metric := "", source_file := none, validated := false,
              error_message := some "Target metric column name is required" }
        ∧ should_continue_after_metric_validation
            { stEmptyTarget with metric_requirements := some (metric_identification ghFail stEmptyTarget) } = "error"
        ∧ error_exit
            { stEmptyTarget with metric_requirements := some (metric_identification ghFail stEmptyTarget) }
          = { status := "failed"
              error := some "Target metric column name is required" }) :=
  ⟨by decide,
    empty_target_metric_fails_validation ghFail stEmptyTarget (by decide)⟩

/-! ### Report generation (`src/agent/src/nodes/report_generator.py`) -/

/-- String form of a hypothesis status as serialized in the state dict. -/
def statusString : HypothesisStatus → String
  | HypothesisStatus.PENDING => "PENDING"
  | HypothesisStatus.INVESTIGATING => "INVESTIGATING"
  | HypothesisStatus.CONFIRMED => "CONFIRMED"
  | HypothesisStatus.RULED_OUT => "RULED_OUT"

/-- `_build_file_summary` (report_generator.py lines 28-37). -/
def build_file_summary (state : InvestigationState) : String :=
  if state.files = [] then "No files analyzed"
  else String.intercalate "\n" (state.files.map fun f =>
    "- **" ++ f.name ++ "**: " ++ f.description)

/-- `_build_hypotheses_summary` (report_generator.py lines 54-64). -/
def build_hypotheses_summary (state : InvestigationState) : String :=
  if state.hypotheses = [] then "No hypotheses tested"
  else String.intercalate "\n" (state.hypotheses.map fun h =>
    let status_emoji := if h.status = HypothesisStatus.CONFIRMED then "✓" else "✗"
    "- [" ++ status_emoji ++ "] **" ++ h.id ++ "**: " ++ h.title
      ++ " - " ++ statusString h.status)

/-- Node update returned by `no_findings_report`, together with the report
content it writes to `report.md`. -/
structure NoFindingsReportUpdate where
  explanations : List Explanation
  report_path : String
  status : String
  report : String
deriving DecidableEq, Repr

/-- `no_findings_report` (report_generator.py lines 317-401): deterministic
templated report, no external call. `session_path` stands for
`Path(sessions_root) / session_id` and `now` for the formatted
`datetime.now(timezone.utc)`. The f-string is transcribed as the
concatenation of its literal segments and interpolated fields. -/
def no_findings_report (state : InvestigationState) (session_path now : String) :
    NoFindingsReportUpdate :=
  let file_summary := build_file_summary state
  let hypotheses_summary := build_hypotheses_summary state
  let report :=
    "# " ++ state.target_metric ++ " Investigation Report\n\n**Investigation Period**: "
      ++ state.baseline_period.start ++ " to " ++ state.baseline_period.«end»
      ++ " vs " ++ state.comparison_period.start ++ " to " ++ state.comparison_period.«end»
      ++ "\n**Generated**: " ++ now
      ++ "\n\n---\n\n## Summary\n\n"
      ++ "The investigation did not identify any confirmed explanations for the observed change in "
      ++ state.target_metric
      ++ ".\n\nAll tested hypotheses were ruled out based on the available data.\n\n---\n\n## Data Analyzed\n\n### Files\n"
      ++ file_summary
      ++ "\n\n---\n\n## Hypotheses Tested\n\n"
      ++ hypotheses_summary
      ++ "\n\n---\n\n## Possible Next Steps\n\n1. **Expand the data scope**: Additional data sources may provide more insight\n2. **Refine the hypothesis set**: Consider alternative explanations not initially tested\n3. **Check data quality**: Verify that the metric calculation is consistent across periods\n4. **Consult domain experts**: Business context may reveal patterns not visible in the data\n\n---\n\n## Methodology\n\nThis analysis was performed by the Metric Drill-Down Agent using:\n- Schema inference to understand data structure\n- Hypothesis generation based on business context\n- Iterative data analysis to validate/invalidate hypotheses\n\n**Hypotheses Tested**: "
      ++ toString state.hypotheses.length
      ++ "\n**Confirmed Explanations**: 0\n\n---\n\n*Generated by Metric Drill-Down Agent*\n"
  { explanations := []
    report_path := session_path ++ "/report.md"
    status := "no_findings"
    report := report }

/-- C7: the conditional edge after Memory Dump selects the Report Generator
exactly when some finding in the state has outcome CONFIRMED, and
otherwise selects the No-Findings Report, which writes report.md
containing the literal sentence that no confirmed explanations were
identified and sets terminal status "no_findings". -/
theorem memory_dump_conditional_edge_and_no_findings_report
    (state : InvestigationState) (session_path now : String) :
    (should_generate_report state = "report"
        ↔ ∃ f ∈ state.findings_ledger, f.outcome = Outcome.CONFIRMED)
      ∧ (should_generate_report state = "no_findings"
        ↔ ¬ ∃ f ∈ state.findings_ledger, f.outcome = Outcome.CONFIRMED)
      ∧ (no_findings_report state session_path now).status = "no_findings"
      ∧ (no_findings_report state session_path now).report_path
        = session_path ++ "/report.md"
      ∧ (no_findings_report state session_path now).explanations = []
      ∧ ∃ a b, (no_findings_report state session_path now).report
          = a ++ "The investigation did not identify any confirmed explanations for the observed change in "
            ++ b := by
  have hiff : (state.findings_ledger.filter
        fun f => decide (f.outcome = Outcome.CONFIRMED)) ≠ []
      ↔ ∃ f ∈ state.findings_ledger, f.outcome = Outcome.CONFIRMED := by
    rw [Ne, List.filter_eq_nil_iff]
    push_neg
    simp
  refine ⟨?_, ?_, rfl, rfl, rfl, ?_⟩
  · by_cases hc : (state.findings_ledger.filter
        fun f => decide (f.outcome = Outcome.CONFIRMED)) = []
    · rw [← hiff]
      simp [should_generate_report, hc]
    · rw [← hiff]
      simp [should_generate_report, hc]
  · by_cases hc : (state.findings_ledger.filter
        fun f => decide (f.outcome = Outcome.CONFIRMED)) = []
    · rw [← hiff]
      simp [should_generate_report, hc]
    · rw [← hiff]
      simp [should_generate_report, hc]
  · refine ⟨"# " ++ state.target_metric
        ++ " Investigation Report\n\n**Investigation Period**: "
        ++ state.baseline_period.start ++ " to " ++ state.baseline_period.«end»
        ++ " vs " ++ state.comparison_period.start ++ " to "
        ++ state.comparison_period.«end»
        ++ "\n**Generated**: " ++ now
        ++ "\n\n---\n\n## Summary\n\n",
      state.target_metric
        ++ ".\n\nAll tested hypotheses were ruled out based on the available data.\n\n---\n\n## Data Analyzed\n\n### Files\n"
        ++ build_file_summary state
        ++ "\n\n---\n\n## Hypotheses Tested\n\n"
        ++ build_hypotheses_summary state
        ++ "\n\n---\n\n## Possible Next Steps\n\n1. **Expand the data scope**: Additional data sources may provide more insight\n2. **Refine the hypothesis set**: Consider alternative explanations not initially tested\n3. **Check data quality**: Verify that the metric calculation is consistent across periods\n4. **Consult domain experts**: Business context may reveal patterns not visible in the data\n\n---\n\n## Methodology\n\nThis analysis was performed by the Metric Drill-Down Agent using:\n- Schema inference to understand data structure\n- Hypothesis generation based on business context\n- Iterative data analysis to validate/invalidate hypotheses\n\n**Hypotheses Tested**: "
        ++ toString state.hypotheses.length
        ++ "\n**Confirmed Explanations**: 0\n\n---\n\n*Generated by Metric Drill-Down Agent*\n", ?_⟩
    simp [no_findings_report, String.append_assoc]

/-- `get_confirmed_findings` (findings_ledger.py lines 106-116): the stored
findings with outcome CONFIRMED, in stored (append) order. A missing file
is lazily initialized by the read, so it contributes no findings. -/
def get_confirmed_findings (file : Option Ledger) : List Finding :=
  (storedFindings file).filter fun f => decide (f.outcome = Outcome.CONFIRMED)

/-- Likelihood label from the 1-based rank (report_generator.py line 115):
`"Most Likely" if i == 1 else ("Likely" if i <= 3 else "Possible")`. -/
def likelihoodOfRank (i : Nat) : String :=
  if i = 1 then "Most Likely" else if i ≤ 3 then "Likely" else "Possible"

/-- The `Explanation(...)` literal of `_generate_explanations`
(report_generator.py lines 112-127). -/
def mkExplanation (i : Nat) (hypothesis : Hypothesis) (finding : Finding) :
    Explanation :=
  { rank := i
    title := hypothesis.title
    likelihood := likelihoodOfRank i
    evidence := finding.key_metrics.map fun m =>
      { metric := m, value := "", interpretation := "" }
    reasoning := finding.evidence
    causal_story := hypothesis.causal_story
    source_hypotheses := [finding.hypothesis_id] }

/-- The `for i, finding in enumerate(confirmed, 1)` loop of
`_generate_explanations` (lines 101-128): look up the originating
hypothesis by id (first match in list order); a finding with no matching
hypothesis is skipped by `continue`, but the enumeration counter advances
regardless. -/
def explanationsLoop (hyps : List Hypothesis) : Nat → List Finding → List Explanation
  | _, [] => []
  | i, f :: rest =>
    match hyps.find? (fun h => decide (h.id = f.hypothesis_id)) with
    | none => explanationsLoop hyps (i + 1) rest
    | some hypothesis => mkExplanation i hypothesis f :: explanationsLoop hyps (i + 1) rest

/-- `_generate_explanations` (report_generator.py lines 90-130): ranked
explanations from the confirmed findings only, in ledger order,
enumerating ranks from 1. -/
def generate_explanations (state : InvestigationState) (file : Option Ledger) :
    List Explanation :=
  let confirmed := get_confirmed_findings file
  if confirmed = [] then [] else explanationsLoop state.hypotheses 1 confirmed

/-- Characterization of the explanation loop when every finding has an
originating hypothesis: one explanation per finding, ranks counting up
from the start index, likelihood determined by the rank, reasoning copied
from the finding's evidence, title and causal story copied from the first
hypothesis whose id matches the finding. -/
theorem explanationsLoop_all_matched (hyps : List Hypothesis)
    (fs : List Finding) (i : Nat)
    (hm : ∀ f ∈ fs, (hyps.find? fun h => decide (h.id = f.hypothesis_id)).isSome) :
    (explanationsLoop hyps i fs).length = fs.length
      ∧ (explanationsLoop hyps i fs).map Explanation.rank = List.range' i fs.length
      ∧ (explanationsLoop hyps i fs).map Explanation.likelihood
        = (List.range' i fs.length).map likelihoodOfRank
      ∧ (explanationsLoop hyps i fs).map Explanation.reasoning
        = fs.map Finding.evidence
      ∧ (explanationsLoop hyps i fs).map Explanation.title
        = fs.map (fun f =>
            (((hyps.find? fun h => decide (h.id = f.hypothesis_id)).map
              Hypothesis.title).getD ""))
      ∧ (explanationsLoop hyps i fs).map Explanation.causal_story
        = fs.map (fun f =>
            (((hyps.find? fun h => decide (h.id = f.hypothesis_id)).map
              Hypothesis.causal_story).getD "")) := by
  induction fs generalizing i with
  | nil => simp [explanationsLoop]
  | cons f rest ih =>
    obtain ⟨hypothesis, hfind⟩ := Option.isSome_iff_exists.mp
      (hm f (List.mem_cons_self f rest))
    have ihr := ih (i + 1) (fun g hg => hm g (List.mem_cons_of_mem f hg))
    simp only [explanationsLoop, hfind, mkExplanation, List.map_cons,
      List.length_cons, List.range']
    exact ⟨by simp [ihr.1], by simp [ihr.2.1], by simp [ihr.2.2.1],
      by simp [ihr.2.2.2.1], by simp [hfind, ihr.2.2.2.2.1],
      by simp [hfind, ihr.2.2.2.2.2]⟩

/-- C8: when every confirmed finding in the ledger has an originating
hypothesis (as the workflow guarantees), the derived explanations are one
per confirmed finding in ledger-append order: the i-th confirmed finding
yields rank i, likelihood "Most Likely" for rank 1, "Likely" for ranks
2-3, "Possible" otherwise, reasoning copied from the finding's evidence
and title/causal story copied from the originating hypothesis. -/
theorem explanations_ranked_from_confirmed_findings
    (state : InvestigationState) (file : Option Ledger)
    (hm : ∀ f ∈ get_confirmed_findings file,
      (state.hypotheses.find? fun h => decide (h.id = f.hypothesis_id)).isSome) :
    (generate_explanations state file).length
        = (get_confirmed_findings file).length
      ∧ (generate_explanations state file).map Explanation.rank
        = List.range' 1 (get_confirmed_findings file).length
      ∧ (generate_explanations state file).map Explanation.likelihood
        = (List.range' 1 (get_confirmed_findings file).length).map likelihoodOfRank
      ∧ (generate_explanations state file).map Explanation.reasoning
        = (get_confirmed_findings file).map Finding.evidence
      ∧ (generate_explanations state file).map Explanation.title
        = (get_confirmed_findings file).map (fun f =>
            (((state.hypotheses.find? fun h => decide (h.id = f.hypothesis_id)).map
              Hypothesis.title).getD ""))
      ∧ (generate_explanations state file).map Explanation.causal_story
        = (get_confirmed_findings file).map (fun f =>
            (((state.hypotheses.find? fun h => decide (h.id = f.hypothesis_id)).map
              Hypothesis.causal_story).getD ""))
      ∧ likelihoodOfRank 1 = "Most Likely"
      ∧ likelihoodOfRank 2 = "Likely"
      ∧ likelihoodOfRank 3 = "Likely" := by
  by_cases hempty : get_confirmed_findings file = []
  · simp [generate_explanations, hempty, likelihoodOfRank]
  · have hloop := explanationsLoop_all_matched state.hypotheses
      (get_confirmed_findings file) 1 hm
    simp only [generate_explanations, if_neg hempty]
    exact ⟨hloop.1, hloop.2.1, hloop.2.2.1, hloop.2.2.2.1,
      hloop.2.2.2.2.1, hloop.2.2.2.2.2, by rfl, by rfl, by rfl⟩

/-- Concrete hypotheses for the C8 witness. -/
def hypsW8 : List Hypothesis :=
  [ { id := "H1", title := "Mix shift", causal_story := "mix moved"
      dimensions := ["region"], expected_pattern := "share change"
      priority := 1, status := HypothesisStatus.CONFIRMED },
    { id := "H2", title := "Region drop", causal_story := "west fell"
      dimensions := ["region"], expected_pattern := "west down"
      priority := 2, status := HypothesisStatus.CONFIRMED },
    { id := "H3", title := "Price change", causal_story := "prices moved"
      dimensions := ["product"], expected_pattern := "price down"
      priority := 3, status := HypothesisStatus.CONFIRMED },
    { id := "H4", title := "Seasonality", causal_story := "seasonal dip"
      dimensions := ["date"], expected_pattern := "cyclic"
      priority := 4, status := HypothesisStatus.RULED_OUT } ]

/-- Concrete ledger file for the C8 witness: three CONFIRMED findings in
append order, plus one RULED_OUT finding interleaved. -/
def ledgerW8 : Option Ledger :=
  some
    { session_id := "s1", created_at := "t0", updated_at := "t4"
      findings :=
        [ { sampleFinding with finding_id := "FH1", hypothesis_id := "H1", evidence := "e1" },
          { sampleFinding with finding_id := "FH4", hypothesis_id := "H4", outcome := Outcome.RULED_OUT, evidence := "e4" },
          { sampleFinding with finding_id := "FH2", hypothesis_id := "H2", evidence := "e2" },
          { sampleFinding with finding_id := "FH3", hypothesis_id := "H3", evidence := "e3" } ]
      summary :=
        { total_hypotheses := 4, confirmed := 3, ruled_out := 1, pending := 0 } }

/-- Concrete state for the C8 witness. -/
def stW8 : InvestigationState := { stRevenue with hypotheses := hypsW8 }

/-- Witness for C8 at a concrete input: three confirmed findings in ledger
order yield ranks 1,2,3 with likelihoods "Most Likely","Likely","Likely". -/
theorem explanations_ranked_witness :
    ((generate_explanations stW8 ledgerW8).length
        = (get_confirmed_findings ledgerW8).length
      ∧ (generate_explanations stW8 ledgerW8).map Explanation.rank
        = List.range' 1 (get_confirmed_findings ledgerW8).length
      ∧ (generate_explanations stW8 ledgerW8).map Explanation.likelihood
        = (List.range' 1 (get_confirmed_findings ledgerW8).length).map likelihoodOfRank
      ∧ (generate_explanations stW8 ledgerW8).map Explanation.reasoning
        = (get_confirmed_findings ledgerW8).map Finding.evidence
      ∧ (generate_explanations stW8 ledgerW8).map Explanation.title
        = (get_confirmed_findings ledgerW8).map (fun f =>
            (((stW8.hypotheses.find? fun h => decide (h.id = f.hypothesis_id)).map
              Hypothesis.title).getD ""))
      ∧ (generate_explanations stW8 ledgerW8).map Explanation.causal_story
        = (get_confirmed_findings ledgerW8).map (fun f =>
            (((stW8.hypotheses.find? fun h => decide (h.id = f.hypothesis_id)).map
              Hypothesis.causal_story).getD ""))
      ∧ likelihoodOfRank 1 = "Most Likely"
      ∧ likelihoodOfRank 2 = "Likely"
      ∧ likelihoodOfRank 3 = "Likely")
      ∧ (generate_explanations stW8 ledgerW8).map Explanation.rank = [1, 2, 3]
      ∧ (generate_explanations stW8 ledgerW8).map Explanation.likelihood
        = ["Most Likely", "Likely", "Likely"]
      ∧ (generate_explanations stW8 ledgerW8).map Explanation.title
        = ["Mix shift", "Region drop", "Price change"] :=
  ⟨explanations_ranked_from_confirmed_findings stW8 ledgerW8 (by decide),
    by decide, by decide, by decide⟩

/-! ### Schema inference (`src/agent/src/nodes/schema_inference.py`)

Collaborators: `read_file` abstracts the per-file
`get_headers`/`get_row_count`/`sample_rows` block of
`_build_file_descriptions` (lines 112-133), returning the rendered
description body or the text of the raised error (the missing-file
pre-check of lines 103-109 is one more way for it to error); `llm`
abstracts the structured-output call of lines 225-249, returning the
inferred data model (`_to_data_model` of a `DataModelSchema` is the
identity in this embedding, the two types having the same fields) or the
text of the raised error. -/

/-- `_build_file_descriptions` (lines 95-139): renders one block per file;
a file whose read raises contributes an error block instead of raising —
this function is total. -/
def build_file_descriptions (read_file : String → Except String String)
    (files : List FileInfo) : String :=
  String.intercalate "\n" (files.map fun fi =>
    match read_file fi.path with
    | Except.ok body => "### " ++ fi.name ++ "\n" ++ body
    | Except.error e => "### " ++ fi.name ++ "\nError reading file: " ++ e ++ "\n")

/-- Node update returned by `schema_inference`. `files = none` models the
update dicts that omit the "files" key (empty-list and error branches). -/
structure SchemaInferenceUpdate where
  data_model : DataModel
  selected_dimensions : List String
  files : Option (List FileInfo)
  error : Option String
deriving DecidableEq, Repr

/-- The empty `DataModel` produced by the fallback branches. -/
def emptyDataModel : DataModel :=
  { tables := [], relationships := [], recommended_dimensions := [] }

/-- The per-file schema merge of lines 255-262: each file gets the columns
of the table with its `file_id` (first match), others are unchanged. -/
def mergeFileSchemas (files : List FileInfo) (dm : DataModel) : List FileInfo :=
  files.map fun fi =>
    match dm.tables.find? (fun t => decide (t.file_id = fi.file_id)) with
    | some t => { fi with schema := some { columns := t.columns } }
    | none => fi

/-- `schema_inference` (lines 194-285): empty file list short-circuits to
the empty data model; otherwise the prompt is built (totally, read errors
included as text) and the LLM result either populates the update or, on
error, degrades to the empty data model with an error message — the node
never raises. -/
def schema_inference (read_file : String → Except String String)
    (llm : String → Except String DataModel)
    (prompt_template : String) (state : InvestigationState) :
    SchemaInferenceUpdate :=
  if state.files = [] then
    { data_model := emptyDataModel
      selected_dimensions := []
      files := none
      error := none }
  else
    let file_descriptions := build_file_descriptions read_file state.files
    let prompt := prompt_template.replace "{file_descriptions}" file_descriptions
    match llm prompt with
    | Except.ok data_model =>
      { data_model := data_model
        selected_dimensions := data_model.recommended_dimensions
        files := some (mergeFileSchemas state.files data_model)
        error := none }
    | Except.error e =>
      { data_model := emptyDataModel
        selected_dimensions := []
        files := none
        error := some ("Schema inference failed: " ++ e) }

/-- File reader that always fails. -/
def readFailW : String → Except String String :=
  fun path => Except.error ("File not found: " ++ path)

/-- LLM stub returning one inferred table regardless of the prompt. -/
def llmOkOneTable : String → Except String DataModel :=
  fun _ => Except.ok
    { tables := [
        { file_id := "f1", name := "sales.csv", row_count := 0
          column_count := 1
          columns := [
            { name := "revenue", inferred_type := "measure"
              data_type := "float", cardinality := 0
              sample_values := [], nullable := false } ] } ]
      relationships := []
      recommended_dimensions := ["region"] }

/-- LLM stub that always fails. -/
def llmFailW : String → Except String DataModel :=
  fun _ => Except.error "rate limited"

/-- C9 counterexample: a read failure does NOT force an empty DataModel.
With one file whose read raises and an LLM call that still succeeds, the
stage returns the LLM's non-empty data model, contradicting the claim
that any read failure yields an empty DataModel. -/
theorem schema_read_failure_nonempty_model_cex :
    readFailW "sessions/s1/files/sales.csv"
        = Except.error "File not found: sessions/s1/files/sales.csv"
      ∧ (schema_inference readFailW llmOkOneTable "template" stRevenue).data_model
        ≠ emptyDataModel
      ∧ (schema_inference readFailW llmOkOneTable "template" stRevenue).selected_dimensions
        ≠ [] := by
  refine ⟨rfl, ?_, ?_⟩ <;> decide

/-- C9 amended: schema inference never raises — per-file read failures are
captured as error text inside the prompt and do not by themselves change
the output (the LLM result still determines it) — while an empty file
list, or a failing LLM call, yields the empty DataModel with an empty
selected-dimensions list (the error branch also recording an error
message), so the pipeline always proceeds to metric identification. -/
theorem schema_inference_empty_on_no_files_or_llm_failure
    (read_file : String → Except String String)
    (llm : String → Except String DataModel)
    (prompt_template : String) (state : InvestigationState) (e : String)
    (hllm : ∀ p, llm p = Except.error e) :
    schema_inference read_file llm prompt_template { state with files := [] }
        = { data_model := emptyDataModel
            selected_dimensions := []
            files := none
            error := none }
      ∧ (state.files ≠ [] →
          schema_inference read_file llm prompt_template state
            = { data_model := emptyDataModel
                selected_dimensions := []
                files := none
                error := some ("Schema inference failed: " ++ e) }) := by
  constructor
  · simp [schema_inference]
  · intro hne
    simp [schema_inference, hne, hllm]

/-- Witness for the amended C9 at concrete inputs: an empty file list and,
separately, a failing LLM on a non-empty file list. -/
theorem schema_inference_empty_witness :
    schema_inference readFailW llmFailW "template" { stRevenue with files := [] }
        = { data_model := emptyDataModel
            selected_dimensions := []
            files := none
            error := none }
      ∧ schema_inference readFailW llmFailW "template" stRevenue
        = { data_model := emptyDataModel
            selected_dimensions := []
            files := none
            error := some ("Schema inference failed: " ++ "rate limited") } :=
  ⟨(schema_inference_empty_on_no_files_or_llm_failure readFailW llmFailW
      "template" stRevenue "rate limited" (fun _ => rfl)).1,
    (schema_inference_empty_on_no_files_or_llm_failure readFailW llmFailW
      "template" stRevenue "rate limited" (fun _ => rfl)).2 (by decide)⟩

end MetricExplorer
